import Mathlib

/-!
Shallow embedding of the `hako` OCI container runtime (src/main.rs) and
verification of the frozen claims about it.

Conventions of the embedding:
* Rust structs become Lean structures with the same field names
  (`PathBuf` becomes `String`).
* `nix::sched::CloneFlags` is a bitflag set over seven distinct bits; it is
  modelled as `Finset NsFlag`, where `|` is union, `& CLONE_NEWPID` is
  intersection with the singleton, and `& !CLONE_NEWPID` is set difference.
* Fallible Rust code returning `Result` becomes `Except String`;
  panicking constructions (`unwrap`, out-of-bounds indexing) become `Option`
  (`none` = panic).
* The syscall sequence performed by `init_process` on its success path is
  modelled as an explicit event trace (`initTrace`).
-/

namespace Hako

/-- Embeds `struct Root` of src/main.rs (`path: PathBuf`, `readonly: bool`,
where `readonly` carries `#[serde(default)]`). -/
structure Root where
  path : String
  readonly : Bool
deriving DecidableEq, Repr

/-- Embeds `struct User` of src/main.rs: `uid`/`gid` are required `usize`,
`umask` and `additional_gids` are optional. -/
structure User where
  uid : Nat
  gid : Nat
  umask : Option Nat
  additional_gids : Option (List Nat)
deriving DecidableEq, Repr

/-- Embeds `struct Process` of src/main.rs: `terminal` carries
`#[serde(default)]`, `user` and `cwd` and `args` are required, `env` is
optional. Note that nothing constrains `args` to be non-empty. -/
structure Process where
  terminal : Bool
  user : User
  cwd : String
  env : Option (List String)
  args : List String
deriving DecidableEq, Repr

/-- Embeds `struct Mount` of src/main.rs. -/
structure Mount where
  destination : String
  source : Option String
  options : Option (List String)
deriving DecidableEq, Repr

/-- Embeds `struct Namespace` of src/main.rs (`r#type: String`). -/
structure Namespace where
  type : String
deriving DecidableEq, Repr

/-- Embeds `struct Linux` of src/main.rs. -/
structure Linux where
  namespaces : List Namespace
deriving DecidableEq, Repr

/-- Embeds `struct Spec` of src/main.rs. -/
structure Spec where
  oci_version : String
  root : Root
  process : Process
  hostname : Option String
  domainname : Option String
  mounts : Option (List Mount)
  linux : Option Linux
deriving DecidableEq, Repr

/-- Embeds `struct CreateContext` of src/main.rs. -/
structure CreateContext where
  container_id : String
  path_to_bundle : String
  spec : Spec
  console_socket : Option String
  pid_file : Option String
  root : String
  log : String
deriving DecidableEq, Repr

/-- The seven distinct namespace bits of `nix::sched::CloneFlags` that
`Linux::clone_flags` can produce. -/
inductive NsFlag where
  | newPid
  | newNet
  | newNs
  | newIpc
  | newUts
  | newUser
  | newCgroup
deriving DecidableEq, Repr

/-- Embeds the `match n.r#type.as_str()` arm of `Linux::clone_flags`
(src/main.rs lines 100-109): each known type string maps to one clone flag,
every other string maps to the empty flag set. -/
def nsFlagOf (t : String) : Finset NsFlag :=
  if t = "pid" then {NsFlag.newPid}
  else if t = "network" then {NsFlag.newNet}
  else if t = "mount" then {NsFlag.newNs}
  else if t = "ipc" then {NsFlag.newIpc}
  else if t = "uts" then {NsFlag.newUts}
  else if t = "user" then {NsFlag.newUser}
  else if t = "cgroup" then {NsFlag.newCgroup}
  else ∅

/-- Embeds `Linux::clone_flags` (src/main.rs lines 97-111): map each
namespace entry to its flag contribution and fold with `|` starting from
`CloneFlags::empty()`. -/
def Linux.clone_flags (l : Linux) : Finset NsFlag :=
  (l.namespaces.map (fun n => nsFlagOf n.type)).foldl (fun a b => a ∪ b) ∅

/-- Embeds the flag argument of the `unshare` call in `intermediate_process`
(src/main.rs line 264): `linux.clone_flags() & CloneFlags::CLONE_NEWPID`. -/
def intermediateUnshareFlags (l : Linux) : Finset NsFlag :=
  l.clone_flags ∩ {NsFlag.newPid}

/-- Embeds the flag argument of the `unshare` call in `init_process`
(src/main.rs line 324): `linux.clone_flags() & !CloneFlags::CLONE_NEWPID`. -/
def initUnshareFlags (l : Linux) : Finset NsFlag :=
  l.clone_flags \ {NsFlag.newPid}

/-- The closed set of namespace type strings recognised by
`Linux::clone_flags`. -/
def knownNsType (t : String) : Bool :=
  t = "pid" || t = "network" || t = "mount" || t = "ipc" || t = "uts" ||
    t = "user" || t = "cgroup"

/-- State of the peer end of one direction of a `SOCK_SEQPACKET` socketpair
as seen by a receiver: either the peer closed its end without ever sending a
datagram, or one datagram with the given payload bytes is queued. -/
inductive PeerState where
  | closedNoPayload
  | queued (bytes : List Nat)
deriving DecidableEq, Repr

/-- Embeds the semantics of `nix::sys::socket::recv` on a connected
`SOCK_SEQPACKET` endpoint: when the peer has closed without sending, the
kernel `recv` returns 0 (end of stream) and nix maps this to `Ok(0)` — not
to an `Err`; when a datagram is queued, its bytes are returned. The result
is the prefix of the datagram that fits the caller's buffer. -/
def sysRecv (st : PeerState) (bufLen : Nat) : Except String (List Nat) :=
  match st with
  | PeerState.closedNoPayload => Except.ok []
  | PeerState.queued bytes => Except.ok (bytes.take bufLen)

/-- Embeds `String::from_utf8` restricted to the ASCII range. Every datagram
this program ever sends (`child_pid.to_string()` and `"ready"`) is ASCII, on
which this model agrees with full UTF-8 decoding; non-ASCII byte lists are
conservatively rejected. -/
def fromUtf8Ascii (bytes : List Nat) : Except String String :=
  if bytes.all (fun b => b < 128) then
    Except.ok (String.mk (bytes.map (fun b => Char.ofNat b)))
  else Except.error "invalid utf-8"

/-- Embeds `IpcChannel::recv` (src/main.rs lines 134-139): a 1024-byte
buffer is filled by `recv`, truncated to the returned length, and decoded
with `String::from_utf8`. -/
def IpcChannel.recv (st : PeerState) : Except String String :=
  match sysRecv st 1024 with
  | Except.error e => Except.error e
  | Except.ok data => fromUtf8Ascii data

/-- ASCII byte encoding of a string; agrees with Rust `str::as_bytes` on the
ASCII payloads this program sends. -/
def strBytes (s : String) : List Nat :=
  s.data.map Char.toNat

/-- Embeds the pid-file update of `create` (src/main.rs lines 233-236):
`OpenOptions::new().create(true).write(true).open(..)` followed by
`write!(pid_file, "{}", init_pid)`. The open has no `truncate(true)`, so an
existing file keeps its contents and the write overwrites bytes in place
starting at offset 0; prior bytes beyond the written length survive. -/
def writePidFile (prior : List Nat) (init_pid : String) : List Nat :=
  strBytes init_pid ++ prior.drop (strBytes init_pid).length

/-- Embeds the parent (P0) branch of `create` (src/main.rs lines 218-238),
parameterised by the observable state of the two channels and the prior
contents of the pid file. It receives the init PID string on channel A, the
readiness string on channel B, then, when `--pid-file` was given, writes the
PID string to the file. Returns the final pid-file contents;
`Except.ok` corresponds to `create` exiting 0. -/
def createParent (stA stB : PeerState) (pid_file : Option String)
    (prior : List Nat) : Except String (Option (List Nat)) :=
  match IpcChannel.recv stA with
  | Except.error e => Except.error e
  | Except.ok init_pid =>
    match IpcChannel.recv stB with
    | Except.error e => Except.error e
    | Except.ok _ready =>
      match pid_file with
      | some _ => Except.ok (some (writePidFile prior init_pid))
      | none => Except.ok none

/-- Embeds `const HAKO_ROOT` of src/main.rs line 27. -/
def HAKO_ROOT : String := "/run/hako"

/-- Embeds `const EXEC_SOCK` of src/main.rs line 28. -/
def EXEC_SOCK : String := "exec.sock"

/-- Embeds `PathBuf::join` for the relative components used here. -/
def pathJoin (a b : String) : String := a ++ "/" ++ b

/-- Embeds the container-root path computation of `init_process`
(src/main.rs lines 343-349): `PathBuf::from_str(HAKO_ROOT)` joined with the
first ten characters of `container_id`. Note the source uses the constant
`HAKO_ROOT`, not `ctx.root`. -/
def containerRootPath (container_id : String) : String :=
  pathJoin HAKO_ROOT (container_id.take 10)

/-- Embeds the exec-socket path computed by `init_process` (src/main.rs
line 350). The `ctx` argument is the context `init_process` receives; the
computation reads only `ctx.container_id` and ignores `ctx.root`. -/
def initExecSockPath (ctx : CreateContext) : String :=
  pathJoin (containerRootPath ctx.container_id) EXEC_SOCK

/-- Embeds the exec-socket path computed by the `Commands::Start` arm of
`main` (src/main.rs lines 421-423). `cliRoot` is the parsed `--root` value,
in scope there as `cli.root`; the computation uses the constant `HAKO_ROOT`
and ignores it. -/
def startExecSockPath (_cliRoot : String) (container_id : String) : String :=
  pathJoin (pathJoin HAKO_ROOT (container_id.take 10)) EXEC_SOCK

/-- The path the spec claims for the exec rendezvous socket:
`${runtime_root}/${container_id[0..10]}/exec.sock` with `runtime_root` the
value of the `--root` flag. Stated from the spec text, for comparison with
the source-derived `initExecSockPath`. -/
def specClaimedExecSockPath (runtimeRoot container_id : String) : String :=
  runtimeRoot ++ "/" ++ container_id.take 10 ++ "/" ++ EXEC_SOCK

/-- Outcome of the PTY-broker section at the top of `init_process`
(src/main.rs lines 290-321). -/
inductive BrokerOutcome where
  | notEntered
  | panicMissingSocket
  | ran (console_path : String)
deriving DecidableEq, Repr

/-- Embeds the activation structure of the PTY broker in `init_process`:
the block is guarded by `if ctx.spec.process.terminal` alone, and inside it
`ctx.console_socket.unwrap()` (line 301) panics when `--console-socket` was
not given. -/
def ptyBrokerOutcome (ctx : CreateContext) : BrokerOutcome :=
  if ctx.spec.process.terminal then
    match ctx.console_socket with
    | none => BrokerOutcome.panicMissingSocket
    | some p => BrokerOutcome.ran p
  else BrokerOutcome.notEntered

/-- One syscall-level event of `init_process`, in the order the source
issues them. Events carry no payload; they name the call sites of
src/main.rs lines 288-387. -/
inductive Event where
  | setsidCall
  | openptyCall
  | socketConsole
  | connectConsole
  | sendmsgConsole
  | ioctlTiocsctty
  | dup2Stdin
  | dup2Stdout
  | dup2Stderr
  | closeConsole
  | unshareOther
  | mountPrivateRoot
  | mountBindRootfs
  | mkdirContainerRoot
  | socketExec
  | bindExec
  | listenExec
  | pivotRootCall
  | mountProc
  | sendReady
  | acceptExec
  | chdirCwd
  | execvpCall
deriving DecidableEq, Repr

/-- The success-path syscall trace of `init_process` (src/main.rs lines
287-389), in source order: `setsid`; the PTY-broker block when
`process.terminal` (its console `OwnedFd` is dropped, hence closed, at the
end of the block); `unshare` of the non-PID flags when `spec.linux` is
present; the `MS_PRIVATE|MS_REC` remount of `/`; the recursive self-bind of
`root.path`; directory creation; creation, bind and listen of the exec
socket; `pivot_root`; the procfs mount; the `"ready"` send on channel B;
`accept`; `chdir`; `execvp`. A failure at any step truncates this trace, so
relative order of the events that do occur is as listed. -/
def initTrace (ctx : CreateContext) : List Event :=
  [Event.setsidCall]
  ++ (if ctx.spec.process.terminal then
        [Event.openptyCall, Event.socketConsole, Event.connectConsole,
         Event.sendmsgConsole, Event.ioctlTiocsctty, Event.dup2Stdin,
         Event.dup2Stdout, Event.dup2Stderr, Event.closeConsole]
      else [])
  ++ (if ctx.spec.linux.isSome then [Event.unshareOther] else [])
  ++ [Event.mountPrivateRoot, Event.mountBindRootfs, Event.mkdirContainerRoot,
      Event.socketExec, Event.bindExec, Event.listenExec, Event.pivotRootCall,
      Event.mountProc, Event.sendReady, Event.acceptExec, Event.chdirCwd,
      Event.execvpCall]

/-- Event `a` occurs strictly before event `b` in trace `tr` (each event
occurs at most once in `initTrace`, so first occurrences suffice). -/
def occursBefore (tr : List Event) (a b : Event) : Prop :=
  a ∈ tr ∧ b ∈ tr ∧ tr.indexOf a < tr.indexOf b

instance (tr : List Event) (a b : Event) : Decidable (occursBefore tr a b) :=
  inferInstanceAs (Decidable (a ∈ tr ∧ b ∈ tr ∧ tr.indexOf a < tr.indexOf b))

/-- Whether an event is one of the three `mount(2)` calls issued by
`init_process`. -/
def isMountCall (e : Event) : Bool :=
  e = Event.mountPrivateRoot || e = Event.mountBindRootfs || e = Event.mountProc

/-- The socket-flag bits relevant to the `socket`/`socketpair` call sites. -/
inductive SockFlagBit where
  | cloexec
  | nonblock
deriving DecidableEq, Repr

/-- The runtime-internal sockets created during bring-up. -/
inductive BringUpSocket where
  | pairA
  | pairB
  | consoleSock
  | execSock
deriving DecidableEq, Repr

/-- Embeds the flags argument of the `socketpair` call for channel A
(src/main.rs lines 203-208): `SockFlag::SOCK_CLOEXEC`. -/
def socketpairAFlags : List SockFlagBit := [SockFlagBit.cloexec]

/-- Embeds the flags argument of the `socketpair` call for channel B
(src/main.rs lines 210-215): `SockFlag::SOCK_CLOEXEC`. -/
def socketpairBFlags : List SockFlagBit := [SockFlagBit.cloexec]

/-- Embeds the flags argument of the console `socket` call in
`init_process` (src/main.rs lines 295-300): `SockFlag::empty()`. -/
def consoleSocketFlags : List SockFlagBit := []

/-- Embeds the flags argument of the exec-socket `socket` call in
`init_process` (src/main.rs lines 354-359): `SockFlag::SOCK_CLOEXEC`. -/
def execSocketFlags : List SockFlagBit := [SockFlagBit.cloexec]

/-- The flags each bring-up socket is created with, by call site. -/
def bringUpSocketFlags : BringUpSocket → List SockFlagBit
  | BringUpSocket.pairA => socketpairAFlags
  | BringUpSocket.pairB => socketpairBFlags
  | BringUpSocket.consoleSock => consoleSocketFlags
  | BringUpSocket.execSock => execSocketFlags

/-- Embeds `CString::new(s).unwrap()` (src/main.rs line 384): `CString::new`
fails exactly when the byte string contains a NUL byte, and the `unwrap`
turns that failure into a panic (`none`). -/
def cstringNew (s : String) : Option String :=
  if s.data.contains (Char.ofNat 0) then none else some s

/-- Embeds the argv construction of `init_process` (src/main.rs lines
379-385): map `CString::new(..).unwrap()` over `process.args` and collect. -/
def buildArgs (args : List String) : Option (List String) :=
  args.mapM cstringNew

/-- Embeds the end of `init_process` (src/main.rs lines 379-387): build the
argv vector, then `execvp(&args[0], &args)`; the indexing `&args[0]` panics
when the vector is empty. Returns the program and argv passed to `execvp`,
or `none` when a panic occurs. -/
def execStep (p : Process) : Option (String × List String) :=
  match buildArgs p.args with
  | none => none
  | some cargs =>
    match cargs with
    | [] => none
    | a0 :: _ => some (a0, cargs)

/-- Minimal JSON value type for the serde model. -/
inductive Json where
  | null
  | bool (b : Bool)
  | num (n : Int)
  | str (s : String)
  | arr (xs : List Json)
  | obj (fields : List (String × Json))

/-- Field lookup in a JSON object; `none` on non-objects and missing keys
(serde ignores unknown fields, so extra keys are simply never looked up). -/
def Json.getField (j : Json) (key : String) : Option Json :=
  match j with
  | Json.obj fields => fields.lookup key
  | _ => none

/-- serde decoding of a JSON string. -/
def decStr : Json → Except String String
  | Json.str s => Except.ok s
  | _ => Except.error "expected string"

/-- serde decoding of a JSON bool. -/
def decBool : Json → Except String Bool
  | Json.bool b => Except.ok b
  | _ => Except.error "expected bool"

/-- serde decoding of a `usize`: a non-negative JSON number. -/
def decNat : Json → Except String Nat
  | Json.num n => if n < 0 then Except.error "expected usize" else Except.ok n.toNat
  | _ => Except.error "expected usize"

/-- serde decoding of a JSON array element-wise. -/
def decList {α : Type} (f : Json → Except String α) : Json → Except String (List α)
  | Json.arr xs => xs.mapM f
  | _ => Except.error "expected array"

/-- serde handling of an `Option<T>` field: missing key or `null` decodes
to `None`; anything else must decode as `T`. -/
def decOptField {α : Type} (j : Json) (key : String)
    (f : Json → Except String α) : Except String (Option α) :=
  match j.getField key with
  | none => Except.ok none
  | some Json.null => Except.ok none
  | some v =>
    match f v with
    | Except.error e => Except.error e
    | Except.ok x => Except.ok (some x)

/-- serde handling of a required field: missing key is an error. -/
def decReqField {α : Type} (j : Json) (key : String)
    (f : Json → Except String α) : Except String α :=
  match j.getField key with
  | none => Except.error ("missing field " ++ key)
  | some v => f v

/-- serde handling of a `#[serde(default)] bool` field: missing key decodes
to `false`. -/
def decDefaultBoolField (j : Json) (key : String) : Except String Bool :=
  match j.getField key with
  | none => Except.ok false
  | some v => decBool v

/-- serde-derive decoder for `struct User` (camelCase field names on the
wire: `additionalGids`). -/
def decodeUser (j : Json) : Except String User := do
  let uid ← decReqField j "uid" decNat
  let gid ← decReqField j "gid" decNat
  let umask ← decOptField j "umask" decNat
  let additional_gids ← decOptField j "additionalGids" (decList decNat)
  pure ⟨uid, gid, umask, additional_gids⟩

/-- serde-derive decoder for `struct Process`. `args` is a required list of
strings with no non-emptiness check: `"args": []` decodes successfully. -/
def decodeProcess (j : Json) : Except String Process := do
  let terminal ← decDefaultBoolField j "terminal"
  let user ← decReqField j "user" decodeUser
  let cwd ← decReqField j "cwd" decStr
  let env ← decOptField j "env" (decList decStr)
  let args ← decReqField j "args" (decList decStr)
  pure ⟨terminal, user, cwd, env, args⟩

/-- serde-derive decoder for `struct Root`. -/
def decodeRoot (j : Json) : Except String Root := do
  let path ← decReqField j "path" decStr
  let readonly ← decDefaultBoolField j "readonly"
  pure ⟨path, readonly⟩

/-- serde-derive decoder for `struct Namespace` (`type` on the wire). -/
def decodeNamespaceEntry (j : Json) : Except String Namespace := do
  let t ← decReqField j "type" decStr
  pure ⟨t⟩

/-- serde-derive decoder for `struct Linux`. -/
def decodeLinux (j : Json) : Except String Linux := do
  let ns ← decReqField j "namespaces" (decList decodeNamespaceEntry)
  pure ⟨ns⟩

/-- serde-derive decoder for `struct Mount`. -/
def decodeMount (j : Json) : Except String Mount := do
  let destination ← decReqField j "destination" decStr
  let source ← decOptField j "source" decStr
  let options ← decOptField j "options" (decList decStr)
  pure ⟨destination, source, options⟩

/-- serde-derive decoder for `struct Spec` (camelCase wire names), the
entry point `Spec::try_from` reaches through `serde_json::from_str`. -/
def decodeSpec (j : Json) : Except String Spec := do
  let oci_version ← decReqField j "ociVersion" decStr
  let root ← decReqField j "root" decodeRoot
  let process ← decReqField j "process" decodeProcess
  let hostname ← decOptField j "hostname" decStr
  let domainname ← decOptField j "domainname" decStr
  let mounts ← decOptField j "mounts" (decList decodeMount)
  let linux ← decOptField j "linux" decodeLinux
  pure ⟨oci_version, root, process, hostname, domainname, mounts, linux⟩

/-- A syntactically well-formed config whose `process.args` is the empty
array. -/
def cfgEmptyArgs : Json :=
  Json.obj [
    ("ociVersion", Json.str "1.0.2"),
    ("root", Json.obj [("path", Json.str "/tmp/rootfs")]),
    ("process", Json.obj [
      ("user", Json.obj [("uid", Json.num 0), ("gid", Json.num 0)]),
      ("cwd", Json.str "/"),
      ("args", Json.arr [])])]

/-- The `Spec` value `cfgEmptyArgs` decodes to. -/
def specEmptyArgs : Spec :=
  ⟨"1.0.2", ⟨"/tmp/rootfs", false⟩,
   ⟨false, ⟨0, 0, none, none⟩, "/", none, []⟩, none, none, none, none⟩

/-- A spec with `process.terminal = true`, used to instantiate context
examples. -/
def specTerminalTrue : Spec :=
  ⟨"1.0.2", ⟨"/tmp/rootfs", false⟩,
   ⟨true, ⟨0, 0, none, none⟩, "/", none, ["/bin/sh"]⟩, none, none, none, none⟩

/-- A create context with `process.terminal = true` and no
`--console-socket`. -/
def ctxTermNoConsole : CreateContext :=
  ⟨"c4demo", "/tmp/bundle", specTerminalTrue, none, none, "/run/hako",
   "/dev/stderr"⟩

/-- A create context with `process.terminal = true` and a console socket. -/
def ctxTermConsole : CreateContext :=
  ⟨"c9demo", "/tmp/bundle", specTerminalTrue, some "/tmp/console.sock", none,
   "/run/hako", "/dev/stderr"⟩

/-- A create context invoked with a non-default `--root` value. -/
def ctxAltRoot : CreateContext :=
  ⟨"c", "/tmp/bundle", specEmptyArgs, none, none, "/tmp/alt", "/dev/stderr"⟩

/-- A process value satisfying the preconditions of the argv claim. -/
def procBinTrue : Process :=
  ⟨false, ⟨0, 0, none, none⟩, "/", none, ["/bin/true"]⟩

end Hako

namespace Hako

theorem foldl_union_eq_union (xs : List (Finset NsFlag)) (acc : Finset NsFlag) :
    xs.foldl (fun a b => a ∪ b) acc = acc ∪ xs.foldl (fun a b => a ∪ b) ∅ := by
  induction xs generalizing acc with
  | nil => simp
  | cons x xs ih =>
      simp only [List.foldl]
      rw [ih (acc ∪ x), ih (∅ ∪ x)]
      simp [Finset.union_assoc]

theorem mem_clone_flags (f : NsFlag) (l : Linux) :
    f ∈ l.clone_flags ↔ ∃ n ∈ l.namespaces, f ∈ nsFlagOf n.type := by
  obtain ⟨ns⟩ := l
  show f ∈ Linux.clone_flags ⟨ns⟩ ↔ _
  unfold Linux.clone_flags
  induction ns with
  | nil => simp
  | cons n ns ih =>
      simp only [List.map, List.foldl]
      rw [foldl_union_eq_union]
      simp only [Finset.empty_union, Finset.mem_union]
      rw [ih]
      simp

theorem newPid_mem_nsFlagOf (t : String) :
    NsFlag.newPid ∈ nsFlagOf t ↔ t = "pid" := by
  unfold nsFlagOf
  split_ifs with h1 h2 h3 h4 h5 h6 h7 <;> simp_all

theorem nsFlagOf_unknown (t : String) (h : knownNsType t = false) :
    nsFlagOf t = ∅ := by
  unfold knownNsType at h
  unfold nsFlagOf
  simp only [Bool.or_eq_false_iff, decide_eq_false_iff_not] at h
  obtain ⟨⟨⟨⟨⟨⟨h1, h2⟩, h3⟩, h4⟩, h5⟩, h6⟩, h7⟩ := h
  simp [h1, h2, h3, h4, h5, h6, h7]

theorem buildArgs_of_no_nul (args : List String) :
    (∀ s ∈ args, s.data.contains (Char.ofNat 0) = false) →
    buildArgs args = some args := by
  induction args with
  | nil => intro _; rfl
  | cons a as ih =>
      intro h
      have ha : cstringNew a = some a := by
        have hc : a.data.contains (Char.ofNat 0) = false :=
          h a (List.mem_cons_self a as)
        unfold cstringNew
        rw [hc]
        rfl
      unfold buildArgs at ih ⊢
      rw [List.mapM_cons, ha, ih (fun s hs => h s (List.mem_cons_of_mem a hs))]
      rfl

/-- Claim C1. The claim states that when P1 or P2 fails before sending its
message (peer end of channel A or B closed without a payload), the caller's
`recv` fails and `create` exits non-zero. The code behaves otherwise: kernel
`recv` on a `SOCK_SEQPACKET` socket whose peer closed returns 0 bytes, nix
maps this to `Ok(0)`, so `IpcChannel::recv` returns `Ok("")`, `create`
proceeds, writes an empty pid file, and exits 0. This theorem evaluates the
embedded code at that failing input. -/
theorem c1_recv_peer_close_returns_ok_empty :
    IpcChannel.recv PeerState.closedNoPayload = Except.ok "" ∧
    createParent PeerState.closedNoPayload PeerState.closedNoPayload
      (some "/tmp/c1.pid") [] = Except.ok (some []) := by
  exact ⟨rfl, rfl⟩

/-- Claim C2. The claim states the pid-file write is create-or-truncate, so
after a successful `create` the file contains exactly the decimal PID of P2
regardless of prior contents. The code opens with
`create(true).write(true)` but no `truncate(true)`: with prior contents
"999999" and PID 42, the file afterwards holds "429999", not "42". This
theorem evaluates the embedded `create` parent at that failing input. -/
theorem c2_pid_file_write_lacks_truncate :
    createParent (PeerState.queued (strBytes "42"))
      (PeerState.queued (strBytes "ready")) (some "/tmp/c2.pid")
      (strBytes "999999") = Except.ok (some (strBytes "429999")) ∧
    strBytes "429999" ≠ strBytes "42" := by
  exact ⟨rfl, by decide⟩

/-- Claim C3, counterexample. The claim says the exec-socket path is
`${--root value}/${container_id[0..10]}/exec.sock`. With `--root /tmp/alt`
and container id "c", `init_process` computes `/run/hako/c/exec.sock` (the
constant `HAKO_ROOT`), not `/tmp/alt/c/exec.sock`. -/
theorem c3_counterexample_root_flag_ignored :
    initExecSockPath ctxAltRoot
      ≠ specClaimedExecSockPath ctxAltRoot.root ctxAltRoot.container_id := by
  decide

/-- Claim C3, amended: for every container id, `create` binds the exec
rendezvous socket at `${/run/hako}/${container_id[0..10]}/exec.sock` — the
constant `HAKO_ROOT`, with the `--root` flag ignored — and `start` resolves
exactly the same path (also ignoring `--root`). -/
theorem c3_exec_sock_path_uses_constant_root (ctx : CreateContext) :
    initExecSockPath ctx = specClaimedExecSockPath HAKO_ROOT ctx.container_id ∧
    startExecSockPath ctx.root ctx.container_id = initExecSockPath ctx := by
  exact ⟨rfl, rfl⟩

/-- Claim C4, counterexample. The claim says the PTY broker runs iff
`process.terminal` is true and `console_socket_path` is provided, and in
particular is not entered when the socket path is absent. With
`process.terminal = true` and no `--console-socket`, the code enters the
broker block (and panics at `ctx.console_socket.unwrap()`). -/
theorem c4_counterexample_terminal_without_console :
    ptyBrokerOutcome ctxTermNoConsole ≠ BrokerOutcome.notEntered ∧
    ctxTermNoConsole.spec.process.terminal = true ∧
    ctxTermNoConsole.console_socket = none := by
  exact ⟨by decide, rfl, rfl⟩

/-- Claim C4, amended: the PTY broker block is entered iff
`process.terminal` is true, regardless of `console_socket_path`. When
terminal is true and the socket path is absent, the broker is entered and
init panics at the `unwrap` of the missing path (so bring-up fails); when
the path is present the broker runs against it; when terminal is false the
broker is not entered even if `--console-socket` is set. -/
theorem c4_broker_guarded_by_terminal_only (ctx : CreateContext) :
    (ptyBrokerOutcome ctx = BrokerOutcome.notEntered ↔
      ctx.spec.process.terminal = false) ∧
    (ctx.spec.process.terminal = true → ctx.console_socket = none →
      ptyBrokerOutcome ctx = BrokerOutcome.panicMissingSocket) ∧
    (∀ p : String, ctx.spec.process.terminal = true →
      ctx.console_socket = some p →
      ptyBrokerOutcome ctx = BrokerOutcome.ran p) := by
  cases ht : ctx.spec.process.terminal <;>
    cases hc : ctx.console_socket <;>
      simp [ptyBrokerOutcome, ht, hc]

/-- Witness for the amended claim C4 at a concrete context with
`terminal = true` and no console socket. -/
theorem c4_broker_guarded_witness :
    ptyBrokerOutcome ctxTermNoConsole = BrokerOutcome.panicMissingSocket :=
  (c4_broker_guarded_by_terminal_only ctxTermNoConsole).2.1 rfl rfl

/-- Claim C5: for every declared namespace list, the flag set passed to the
pre-final-fork `unshare` in P1 contains only the new-PID flag, contains it
exactly when a namespace of type "pid" is declared, the flag set passed to
the post-final-fork `unshare` in P2 contains no PID flag, and the union of
the two equals the flags mapped from the declared list. -/
theorem c5_namespace_split (l : Linux) :
    intermediateUnshareFlags l ⊆ {NsFlag.newPid} ∧
    (NsFlag.newPid ∈ intermediateUnshareFlags l ↔
      ∃ n ∈ l.namespaces, n.type = "pid") ∧
    NsFlag.newPid ∉ initUnshareFlags l ∧
    intermediateUnshareFlags l ∪ initUnshareFlags l = l.clone_flags := by
  refine ⟨Finset.inter_subset_right, ?_, ?_, ?_⟩
  · rw [intermediateUnshareFlags, Finset.mem_inter]
    simp [mem_clone_flags, newPid_mem_nsFlagOf]
  · simp [initUnshareFlags]
  · rw [intermediateUnshareFlags, initUnshareFlags, Finset.union_comm,
      Finset.sdiff_union_inter]

/-- Claim C6: in the syscall sequence issued by `init_process`, the
`MS_PRIVATE|MS_REC` remount of "/" occurs before any other mount call (the
filtered subsequence of mount calls is exactly private, bind, proc in that
order), the recursive self-bind of `root.path` occurs before `pivot_root`,
and the procfs mount occurs after `pivot_root`. -/
theorem c6_mount_precedence (ctx : CreateContext) :
    (initTrace ctx).filter isMountCall
      = [Event.mountPrivateRoot, Event.mountBindRootfs, Event.mountProc] ∧
    occursBefore (initTrace ctx) Event.mountPrivateRoot Event.mountBindRootfs ∧
    occursBefore (initTrace ctx) Event.mountPrivateRoot Event.mountProc ∧
    occursBefore (initTrace ctx) Event.mountBindRootfs Event.pivotRootCall ∧
    occursBefore (initTrace ctx) Event.pivotRootCall Event.mountProc := by
  simp only [initTrace]
  cases ht : ctx.spec.process.terminal <;>
    cases hl : ctx.spec.linux.isSome <;> decide

/-- Claim C7: in every execution of `init_process`, the "ready" datagram on
channel B is sent strictly after the exec rendezvous socket has been bound
at its path and put into the listening state. -/
theorem c7_ready_after_bind_and_listen (ctx : CreateContext) :
    occursBefore (initTrace ctx) Event.bindExec Event.sendReady ∧
    occursBefore (initTrace ctx) Event.listenExec Event.sendReady := by
  simp only [initTrace]
  cases ht : ctx.spec.process.terminal <;>
    cases hl : ctx.spec.linux.isSome <;> decide

/-- Claim C8: namespace entries whose type string is outside the closed set
pid|network|mount|ipc|uts|user|cgroup contribute no flags: `clone_flags` of
a namespace list equals `clone_flags` of the list with all unknown-type
entries removed. -/
theorem c8_unknown_ns_types_contribute_nothing (l : Linux) :
    Linux.clone_flags ⟨l.namespaces.filter (fun n => knownNsType n.type)⟩
      = l.clone_flags := by
  apply Finset.ext
  intro f
  rw [mem_clone_flags, mem_clone_flags]
  constructor
  · rintro ⟨n, hn, hf⟩
    exact ⟨n, List.mem_of_mem_filter hn, hf⟩
  · rintro ⟨n, hn, hf⟩
    refine ⟨n, List.mem_filter.mpr ⟨hn, ?_⟩, hf⟩
    by_contra hk
    rw [Bool.not_eq_true] at hk
    rw [nsFlagOf_unknown n.type hk] at hf
    exact absurd hf (Finset.not_mem_empty f)

/-- Claim C9, counterexample. The claim says every runtime-internal socket
created during bring-up carries close-on-exec; but the console socket used
for the `SCM_RIGHTS` handoff is created with `SockFlag::empty()`. -/
theorem c9_counterexample_console_socket_lacks_cloexec :
    SockFlagBit.cloexec ∉ bringUpSocketFlags BringUpSocket.consoleSock := by
  decide

/-- Claim C9, amended: the two socketpairs and the exec rendezvous socket
are created with close-on-exec; the console socket is created with empty
flags (no close-on-exec), but its owned descriptor is dropped — hence
closed — at the end of the broker block, before `execvp`, so it still does
not remain open in the user program. -/
theorem c9_cloexec_except_console_socket (ctx : CreateContext) :
    SockFlagBit.cloexec ∈ bringUpSocketFlags BringUpSocket.pairA ∧
    SockFlagBit.cloexec ∈ bringUpSocketFlags BringUpSocket.pairB ∧
    SockFlagBit.cloexec ∈ bringUpSocketFlags BringUpSocket.execSock ∧
    bringUpSocketFlags BringUpSocket.consoleSock = [] ∧
    (Event.socketConsole ∈ initTrace ctx →
      occursBefore (initTrace ctx) Event.closeConsole Event.execvpCall) := by
  refine ⟨by decide, by decide, by decide, by decide, ?_⟩
  simp only [initTrace]
  cases ht : ctx.spec.process.terminal <;>
    cases hl : ctx.spec.linux.isSome <;> decide

/-- Witness for the amended claim C9 at a concrete context whose trace
contains the console-socket events. -/
theorem c9_cloexec_except_console_witness :
    occursBefore (initTrace ctxTermConsole) Event.closeConsole
      Event.execvpCall :=
  (c9_cloexec_except_console_socket ctxTermConsole).2.2.2.2 (by decide)

/-- Claim C10: for every process spec whose `args` list is non-empty and
whose argument strings contain no NUL byte, the argv construction of
`init_process` cannot panic — the index `args[0]` is in bounds and every
`CString::new(..).unwrap()` succeeds; moreover the parser itself accepts a
config whose `args` is the empty array, so the non-emptiness precondition
is not established by the `Spec` model. -/
theorem c10_argv_no_panic_and_parser_permissive (p : Process)
    (h1 : p.args ≠ [])
    (h2 : ∀ s ∈ p.args, s.data.contains (Char.ofNat 0) = false) :
    (execStep p).isSome = true ∧
    decodeSpec cfgEmptyArgs = Except.ok specEmptyArgs ∧
    specEmptyArgs.process.args = [] := by
  refine ⟨?_, rfl, rfl⟩
  unfold execStep
  rw [buildArgs_of_no_nul p.args h2]
  cases hp : p.args with
  | nil => exact absurd hp h1
  | cons a as => simp

/-- Witness for claim C10 at the concrete process spec of scenario S1
(`args = ["/bin/true"]`). -/
theorem c10_argv_no_panic_witness :
    (execStep procBinTrue).isSome = true ∧
    decodeSpec cfgEmptyArgs = Except.ok specEmptyArgs ∧
    specEmptyArgs.process.args = [] :=
  c10_argv_no_panic_and_parser_permissive procBinTrue (by decide) (by decide)

end Hako
